import Mathlib

/-!
Verification development for the tawhiri HTTP API layer (src/tawhiri/api.py).

The Python module is shallowly embedded below:
  - pure helpers (hour bucketing, dataset-name formatting) become Lean functions;
  - dictionaries become association lists of string keys and JSON-like values;
  - Python exceptions become an explicit Exc error type threaded with Except;
  - the filesystem touched by the acquisition trigger becomes an explicit
    association-list state with a set of failing paths (open for write can fail);
  - external collaborators (wind dataset open and listdir, ruaumoko elevation,
    the models/stage builder, the solver, datetime.now and
    datetime.fromtimestamp, strict_rfc3339) are parameters of a Collab record
    or, where their behaviour matters, small models noted in doc comments.
-/

/-- Single apostrophe character, used in the exact Python message strings. -/
def SQ : String := "\x27"

/-- Zero-pad a natural to two digits, as Python %02d / strftime %m etc. -/
def pad2 (n : Nat) : String := if n < 10 then "0" ++ toString n else toString n

/-- Zero-pad a natural to four digits, as strftime %Y. -/
def pad4 (n : Nat) : String :=
  if n < 10 then "000" ++ toString n
  else if n < 100 then "00" ++ toString n
  else if n < 1000 then "0" ++ toString n
  else toString n

/-- Zero-pad a natural to six digits, as the microsecond field of isoformat. -/
def pad6 (n : Nat) : String :=
  if n < 10 then "00000" ++ toString n
  else if n < 100 then "0000" ++ toString n
  else if n < 1000 then "000" ++ toString n
  else if n < 10000 then "00" ++ toString n
  else if n < 100000 then "0" ++ toString n
  else toString n

/-- A naive Python datetime.datetime value (no timezone), field for field. -/
structure DateTime where
  year : Nat
  month : Nat
  day : Nat
  hour : Nat
  minute : Nat
  second : Nat
  microsecond : Nat
deriving DecidableEq, Repr

/-- Gregorian leap-year test, as datetime uses. -/
def isLeap (y : Nat) : Bool := (y % 4 == 0 && y % 100 != 0) || (y % 400 == 0)

/-- Days in a month of the proleptic Gregorian calendar. -/
def daysInMonth (y m : Nat) : Nat :=
  if m = 2 then (if isLeap y then 29 else 28)
  else if m = 4 ∨ m = 6 ∨ m = 9 ∨ m = 11 then 30 else 31

/-- Days in the same year strictly before month m (months are 1-based). -/
def daysBeforeMonth (y m : Nat) : Nat :=
  (List.range (m - 1)).foldl (fun acc k => acc + daysInMonth y (k + 1)) 0

/-- Days strictly before January 1 of year y, counting from year 1. -/
def daysBeforeYear (y : Nat) : Nat :=
  (y - 1) * 365 + (y - 1) / 4 - (y - 1) / 100 + (y - 1) / 400

/-- Day number of a DateTime date, with 0001-01-01 mapped to 0
(Python date.toordinal shifted by one; only differences matter here). -/
def toOrdinal (d : DateTime) : Nat :=
  daysBeforeYear d.year + daysBeforeMonth d.year d.month + (d.day - 1)

/-- The instant of a DateTime as microseconds on an absolute scale.
For in-range field values this is strictly monotone in the instant, so it
faithfully embeds Python datetime comparison and timedelta arithmetic. -/
def toEpochMicro (d : DateTime) : Nat :=
  (((toOrdinal d * 24 + d.hour) * 60 + d.minute) * 60 + d.second) * 1000000
    + d.microsecond

/-- strftime "%Y%m%d%H", the dataset filename format. -/
def strftime_YmdH (d : DateTime) : String :=
  pad4 d.year ++ pad2 d.month ++ pad2 d.day ++ pad2 d.hour

/-- strftime "%Y-%m-%dT%H:00:00Z", the echoed dataset reference format. -/
def strftime_echo (d : DateTime) : String :=
  pad4 d.year ++ "-" ++ pad2 d.month ++ "-" ++ pad2 d.day ++ "T"
    ++ pad2 d.hour ++ ":00:00Z"

/-- Python datetime.isoformat(): microseconds appear only when nonzero. -/
def isoformat (d : DateTime) : String :=
  pad4 d.year ++ "-" ++ pad2 d.month ++ "-" ++ pad2 d.day ++ "T"
    ++ pad2 d.hour ++ ":" ++ pad2 d.minute ++ ":" ++ pad2 d.second
    ++ (if d.microsecond = 0 then "" else "." ++ pad6 d.microsecond)

/-- Day number of 1970-01-01 on the toOrdinal scale. -/
def EPOCH_ORDINAL : Nat := daysBeforeYear 1970

/-- Walk months forward consuming n remaining days; returns (month, day). -/
def monthFromDays (y : Nat) : Nat → Nat → Nat → Nat × Nat
  | 0, m, n => (m, n + 1)
  | fuel + 1, m, n =>
      let dm := daysInMonth y m
      if n < dm then (m, n + 1) else monthFromDays y fuel (m + 1) (n - dm)

/-- Walk years forward consuming n remaining days; returns (year, month, day). -/
def ymdFromDays : Nat → Nat → Nat → Nat × Nat × Nat
  | 0, y, n => (y, 1, n + 1)
  | fuel + 1, y, n =>
      let dy := if isLeap y then 366 else 365
      if n < dy then
        let md := monthFromDays y 12 1 n
        (y, md.1, md.2)
      else ymdFromDays fuel (y + 1) (n - dy)

/-- Inverse of toOrdinal for day numbers at or after 0001-01-01. -/
def dateFromOrdinal (o : Nat) : Nat × Nat × Nat := ymdFromDays (o + 1) 1 o

/-- Modelled from the spec: the external strict_rfc3339 collaborator is not in
src/; this models its timestamp-to-wire conversion, rendering a UNIX timestamp
as the fixed-offset textual wire format YYYY-MM-DDTHH:MM:SSZ (UTC, floored to
whole seconds; instants before year 1 are clamped). -/
def timestamp_to_rfc3339 (t : Rat) : String :=
  let n : Int := Rat.floor t
  let days : Int := Int.fdiv n 86400
  let sod : Nat := Int.toNat (n - days * 86400)
  let o : Nat := Int.toNat (days + (EPOCH_ORDINAL : Int))
  let ymd := dateFromOrdinal o
  pad4 ymd.1 ++ "-" ++ pad2 ymd.2.1 ++ "-" ++ pad2 ymd.2.2 ++ "T"
    ++ pad2 (sod / 3600) ++ ":" ++ pad2 (sod % 3600 / 60) ++ ":"
    ++ pad2 (sod % 60) ++ "Z"

/-- Two decimal digit characters to a number, else none. -/
def twoDigits (a b : Char) : Option Nat :=
  if a.isDigit && b.isDigit then some ((a.toNat - 48) * 10 + (b.toNat - 48))
  else none

/-- Modelled from the spec: the external strict_rfc3339 collaborator is not in
src/; this models its wire-to-timestamp parse on the canonical UTC form
YYYY-MM-DDTHH:MM:SSZ, failing (None, i.e. an exception in Python) otherwise. -/
def rfc3339_to_timestamp (s : String) : Option Rat :=
  match s.toList with
  | [y1, y2, y3, y4, c1, m1, m2, c2, d1, d2, c3, h1, h2, c4, i1, i2, c5,
     s1, s2, c6] =>
      if c1 = '-' ∧ c2 = '-' ∧ c3 = 'T' ∧ c4 = ':' ∧ c5 = ':' ∧ c6 = 'Z' then
        match twoDigits y1 y2, twoDigits y3 y4, twoDigits m1 m2,
              twoDigits d1 d2, twoDigits h1 h2, twoDigits i1 i2,
              twoDigits s1 s2 with
        | some yh, some yl, some mo, some da, some ho, some mi, some se =>
            if 1 ≤ mo ∧ mo ≤ 12 ∧ 1 ≤ da ∧ da ≤ 31 ∧ ho < 24 ∧ mi < 60
                ∧ se < 60 then
              let y := yh * 100 + yl
              let ord : Int :=
                (toOrdinal ⟨y, mo, da, 0, 0, 0, 0⟩ : Int) - (EPOCH_ORDINAL : Int)
              some ((ord * 86400 + ho * 3600 + mi * 60 + se : Int) : Rat)
            else none
        | _, _, _, _, _, _, _ => none
      else none
  | _ => none

/-- Digit list to a natural number; none when empty or a non-digit occurs. -/
def digitsVal : List Char → Option Nat
  | [] => none
  | cs =>
      cs.foldl
        (fun acc c =>
          match acc with
          | none => none
          | some n => if c.isDigit then some (n * 10 + (c.toNat - 48)) else none)
        (some 0)

/-- Split a character list on the dot character. -/
def splitOnDot : List Char → List (List Char)
  | [] => [[]]
  | c :: rest =>
      if c = '.' then [] :: splitOnDot rest
      else
        match splitOnDot rest with
        | [] => [[c]]
        | h :: t => (c :: h) :: t

/-- Models the Python builtin float() on plain decimal literals
(optional sign, integer part, optional fractional part); exponent forms,
inf and nan are never sent by the API clients modelled here. -/
def parseFloat (s : String) : Option Rat :=
  let cs := s.toList
  let body :=
    match cs with
    | c :: rest => if c = '-' ∨ c = '+' then rest else cs
    | [] => cs
  let neg : Bool :=
    match cs with
    | c :: _ => c = '-'
    | [] => false
  let signed : Int → Int := fun n => if neg then -n else n
  match splitOnDot body with
  | [i] => (digitsVal i).map (fun n => mkRat (signed n) 1)
  | [i, f] =>
      if i = [] ∧ f = [] then none
      else
        match (if i = [] then some 0 else digitsVal i),
              (if f = [] then some 0 else digitsVal f) with
        | some ip, some fp =>
            some (mkRat (signed (ip * 10 ^ f.length + fp)) (10 ^ f.length))
        | _, _ => none
  | _ => none

/-- JSON-like values: request/response dictionary entries. The dt constructor
holds a raw Python datetime object stored into the request dict by
_is_old_dataset before serialization. -/
inductive JVal where
  | null
  | str (s : String)
  | num (q : Rat)
  | dt (d : DateTime)
  | arr (l : List JVal)
  | obj (l : List (String × JVal))
deriving Repr

/-- Python equality of an arbitrary object with a string literal: true exactly
when the object is an equal string (no implicit coercions in Python ==). -/
def JVal.eqStr : JVal → String → Bool
  | .str s, t => s = t
  | _, _ => false

/-- Python dict assignment d[k] = v: replace in place if the key exists,
else append at the end (insertion order preserved). -/
def dictSet : List (String × JVal) → String → JVal → List (String × JVal)
  | [], k, v => [(k, v)]
  | (k1, v1) :: rest, k, v =>
      if k1 = k then (k, v) :: rest else (k1, v1) :: dictSet rest k v

example : dictSet [("a", JVal.num 1)] "a" (JVal.num 2) = [("a", JVal.num 2)] := rfl

-- Exceptions ------------------------------------------------------------------

/-- The exception taxonomy of api.py, plus the non-API Python exceptions that
can escape this layer (TypeError from bad dynamic typing, AssertionError from
the assert in _parse_stages). InvalidDatasetException keeps its args tuple
because run_prediction re-raises it with the ValueError args spread. -/
inductive Exc where
  | requestExc (msg : String)
  | invalidDatasetExc (args : List String)
  | predictionExc (msg : String)
  | internalExc (msg : String)
  | notYetImplementedExc (msg : String)
  | typeError (msg : String)
  | assertionError
deriving DecidableEq, Repr

/-- status_code class attributes of the APIException hierarchy. -/
def Exc.status_code : Exc → Nat
  | .requestExc _ => 400
  | .invalidDatasetExc _ => 404
  | .predictionExc _ => 500
  | .internalExc _ => 500
  | .notYetImplementedExc _ => 501
  | .typeError _ => 500
  | .assertionError => 500

/-- Whether the exception is an APIException, i.e. is caught by the
app.errorhandler(APIException) boundary handler. -/
def Exc.isAPI : Exc → Bool
  | .requestExc _ => true
  | .invalidDatasetExc _ => true
  | .predictionExc _ => true
  | .internalExc _ => true
  | .notYetImplementedExc _ => true
  | .typeError _ => false
  | .assertionError => false

/-- type(error).__name__ for the envelope. -/
def Exc.typeName : Exc → String
  | .requestExc _ => "RequestException"
  | .invalidDatasetExc _ => "InvalidDatasetException"
  | .predictionExc _ => "PredictionException"
  | .internalExc _ => "InternalException"
  | .notYetImplementedExc _ => "NotYetImplementedException"
  | .typeError _ => "TypeError"
  | .assertionError => "AssertionError"

/-- str(error) for the envelope: the single message, or for a
multi-arg exception the args joined (approximating the tuple repr). -/
def Exc.descr : Exc → String
  | .requestExc m => m
  | .invalidDatasetExc [m] => m
  | .invalidDatasetExc args => String.intercalate ", " args
  | .predictionExc m => m
  | .internalExc m => m
  | .notYetImplementedExc m => m
  | .typeError m => m
  | .assertionError => ""

-- Filesystem model for the acquisition markers ---------------------------------

/-- Overwrite-or-append of a path/content entry, the effect of opening a file
in mode w and closing it: content replaced in place, never appended. -/
def setEntry : List (String × String) → String → String → List (String × String)
  | [], p, c => [(p, c)]
  | (p1, c1) :: rest, p, c =>
      if p1 = p then (p, c) :: rest else (p1, c1) :: setEntry rest p c

/-- The filesystem as seen by touch_file: existing files with their contents,
plus the set of paths on which open(path, w) raises (permissions, missing
directory, ...). -/
structure FS where
  entries : List (String × String)
  failing : List String
deriving DecidableEq, Repr

/-- open(file_path, w) followed by close: creates or truncates the file,
or raises on a failing path. -/
def FS.write (fs : FS) (p c : String) : Except String FS :=
  if fs.failing.contains p then .error ("could not open " ++ p)
  else .ok { fs with entries := setEntry fs.entries p c }

/-- touch_file from api.py: creates the empty file; any exception from the
open is caught inside the function and only printed, never propagated. -/
def touch_file (fs : FS) (file_path : String) : FS :=
  match fs.write file_path "" with
  | .ok fs2 => fs2
  | .error _ => fs

/-- Fetch-request marker path: the downloader expects isoformat. -/
def observed_path (launch_datetime : DateTime) : String :=
  "/srv/observed/" ++ isoformat launch_datetime

/-- Retention-exclusion marker path, keyed by the dataset filename. -/
def exclusion_path (launch_datetime : DateTime) : String :=
  "/srv/deletion_exclusion_list/" ++ strftime_YmdH launch_datetime

/-- _download_old_dataset from api.py: touches the fetch-request marker and
the retention-exclusion marker. -/
def download_old_dataset (fs : FS) (launch_datetime : DateTime) : FS :=
  touch_file (touch_file fs (observed_path launch_datetime))
    (exclusion_path launch_datetime)

-- Time bucketing ---------------------------------------------------------------

/-- is_time_between from api.py: begin_time <= dt_time < end_time. -/
def is_time_between (begin_time end_time dt_time : Nat) : Bool :=
  begin_time ≤ dt_time && dt_time < end_time

/-- hour_to_nearest_dataset from api.py: the for-loop over the four buckets;
returns none (Python None, falling off the loop) for hour >= 24. -/
def hour_to_nearest_dataset (day hour : Nat) : Option (Nat × Nat) :=
  let hours := [0, 6, 12, 18]
  let end_hours := [6, 12, 18, 24]
  (List.range 4).findSome? (fun i =>
    if is_time_between (hours.getD i 0) (end_hours.getD i 0) hour then
      some (day, hours.getD i 0)
    else none)

/-- _date_to_dataset_name from api.py, after the external
datetime.fromtimestamp boundary: bucket the hour, zero the sub-hour fields,
and format the filename. none models the TypeError that replace(day=None)
would raise when hour_to_nearest_dataset falls through (hour >= 24,
impossible for a real datetime). -/
def date_to_dataset_name (launch_date_time : DateTime) :
    Option (String × DateTime) :=
  match hour_to_nearest_dataset launch_date_time.day launch_date_time.hour with
  | none => none
  | some (dataset_day, dataset_hour) =>
      let d2 := { launch_date_time with
        day := dataset_day, hour := dataset_hour,
        minute := 0, second := 0, microsecond := 0 }
      some (strftime_YmdH d2, d2)

-- Lazy elevation-dataset initialization (ruaumoko_ds) --------------------------

/-- Process-wide state of the ruaumoko_ds function object: its once attribute
(the cached ElevationDataset handle, tagged by construction number) and how
many ElevationDataset constructions have happened. -/
structure RuaState where
  once : Option Nat
  constructions : Nat
deriving DecidableEq, Repr

/-- The guard in ruaumoko_ds is hasattr("ruaumoko_ds", "once"): the first
argument is the string literal, not the function object, and the str type has
no attribute named once, so the test is False in every state. -/
def hasattr_str_once (_s : RuaState) : Bool :=
  false

/-- ruaumoko_ds from api.py: if the (always false) hasattr guard fails,
construct a new ElevationDataset, store it in the once attribute, and return
the once attribute. Returns the handle tag and the new state. -/
def ruaumoko_ds (s : RuaState) : Nat × RuaState :=
  if !hasattr_str_once s then
    let handle := s.constructions
    (handle, { once := some handle, constructions := s.constructions + 1 })
  else
    (s.once.getD 0, s)

-- External collaborators --------------------------------------------------------

/-- A wind dataset handle, as far as this layer observes it: its ds_time. -/
structure DSHandle where
  ds_time : DateTime
deriving DecidableEq, Repr

/-- Failure modes of the WindDataset constructor and open_latest. -/
inductive OpenErr where
  | ioError
  | valueError (args : List String)
deriving DecidableEq, Repr

/-- The external collaborators consumed by api.py, as a record of behaviours:
datetime.now and datetime.fromtimestamp, WindDataset.listdir (the filename
field of each yielded namedtuple), WindDataset open (latest and by value),
the ruaumoko elevation get, the models stage builders (their stage-chain
results opaque, tagged by Nat), the solver, and the warning accumulator
rendered by to_dict. -/
structure Collab where
  now : DateTime
  listdir : List String
  fromtimestamp : Rat → DateTime
  elevation : JVal → JVal → Except String JVal
  open_latest : Except OpenErr DSHandle
  open_ds : JVal → Except OpenErr DSHandle
  standard_profile : JVal → JVal → JVal → DSHandle → Nat
  float_profile : JVal → JVal → JVal → DSHandle → Nat
  solve : JVal → JVal → JVal → JVal → Nat →
    Except String (List (List (Rat × Rat × Rat × Rat)))
  warnings : JVal

-- Request parsing ----------------------------------------------------------------

def API_VERSION : Nat := 1
def LATEST_DATASET_KEYWORD : String := "latest"
def PROFILE_STANDARD : String := "standard_profile"
def PROFILE_FLOAT : String := "float_profile"

def msg_not_provided (parameter : String) : String :=
  "Parameter " ++ SQ ++ parameter ++ SQ ++ " not provided in request."

def msg_unparseable (parameter raw : String) : String :=
  "Unable to parse parameter " ++ SQ ++ parameter ++ SQ ++ ": " ++ raw ++ "."

def msg_invalid (parameter raw : String) : String :=
  "Invalid value for parameter " ++ SQ ++ parameter ++ SQ ++ ": " ++ raw ++ "."

/-- _extract_parameter from api.py. All Python keyword defaults are passed
explicitly by the callers below: the default parameter defaults to the string
"prediction" (the QGIS-compatibility change noted in its docstring), ignore
to false and validator to none. The result is an Option JVal because the
default, and hence the returned value, can be Python None. A validator is a
function that can itself raise (TypeError on a cross-type comparison). -/
def extract_parameter (data : List (String × String)) (parameter : String)
    (cast : String → Option JVal) (dflt : Option JVal) (ignore : Bool)
    (validator : Option (JVal → Except Exc Bool)) : Except Exc (Option JVal) :=
  match data.lookup parameter with
  | none =>
      if dflt.isNone && !ignore then
        .error (.requestExc (msg_not_provided parameter))
      else
        .ok dflt
  | some raw =>
      match cast raw with
      | none => .error (.requestExc (msg_unparseable parameter raw))
      | some result =>
          match validator with
          | none => .ok (some result)
          | some v =>
              match v result with
              | .error e => .error e
              | .ok true => .ok (some result)
              | .ok false => .error (.requestExc (msg_invalid parameter raw))

/-- The default value of the default parameter of _extract_parameter. -/
def DFLT_PREDICTION : Option JVal := some (JVal.str "prediction")

/-- The float cast. -/
def cast_float (s : String) : Option JVal := (parseFloat s).map JVal.num

/-- The str cast: str of a string is itself. -/
def cast_str (s : String) : Option JVal := some (JVal.str s)

/-- The _rfc3339_to_timestamp cast. -/
def cast_rfc3339 (s : String) : Option JVal :=
  (rfc3339_to_timestamp s).map JVal.num

/-- A numeric validator applied to a freshly float-cast value; the cast
guarantees a num, any other shape would be a TypeError in Python. -/
def vnum (f : Rat → Bool) : JVal → Except Exc Bool
  | .num q => .ok (f q)
  | _ => .error (.typeError "unsupported comparison")

/-- The validator lambda x: x > bound where bound is a request value that may
not be a number (Python raises TypeError comparing float with str). -/
def vgt (bound : JVal) : JVal → Except Exc Bool
  | .num q =>
      match bound with
      | .num b => .ok (decide (b < q))
      | _ => .error (.typeError "unsupported comparison")
  | _ => .error (.typeError "unsupported comparison")

/-- Option JVal as stored into the request dict (Python None becomes null). -/
def optVal (o : Option JVal) : JVal := o.getD JVal.null

/-- Rendering of a request value by the %s format (only strings reach it). -/
def pyStr : JVal → String
  | .str s => s
  | _ => ""

/-- parse_prediction_request from api.py. The collaborator record supplies
the ruaumoko elevation lookup used when launch_altitude is Python None. -/
def parse_prediction_request (c : Collab) (data : List (String × String)) :
    Except Exc (List (String × JVal)) := do
  let req := [("version", (JVal.num (API_VERSION : Rat)))]
  -- Generic fields
  let lat ← extract_parameter data "launch_latitude" cast_float
    DFLT_PREDICTION false (some (vnum (fun x => decide ((-90 : Rat) ≤ x) && decide (x ≤ 90))))
  let req := dictSet req "launch_latitude" (optVal lat)
  let lon ← extract_parameter data "launch_longitude" cast_float
    DFLT_PREDICTION false (some (vnum (fun x => decide ((0 : Rat) ≤ x) && decide (x < 360))))
  let req := dictSet req "launch_longitude" (optVal lon)
  let ldt ← extract_parameter data "launch_datetime" cast_rfc3339
    DFLT_PREDICTION false none
  let req := dictSet req "launch_datetime" (optVal ldt)
  let alt ← extract_parameter data "launch_altitude" cast_float
    DFLT_PREDICTION true none
  let req := dictSet req "launch_altitude" (optVal alt)
  -- If no launch altitude provided, use Ruaumoko to look it up
  let req ←
    if alt.isNone then
      match c.elevation (optVal lat) (optVal lon) with
      | .ok v => pure (dictSet req "launch_altitude" v)
      | .error _ =>
          Except.error (Exc.internalExc
            ("Internal exception experienced whilst looking up "
              ++ SQ ++ "launch_altitude" ++ SQ ++ "."))
    else pure req
  -- Prediction profile
  let profile ← extract_parameter data "profile" cast_str
    (some (JVal.str PROFILE_STANDARD)) false none
  let req := dictSet req "profile" (optVal profile)
  let launch_alt := optVal (req.lookup "launch_altitude")
  let req ←
    if (optVal profile).eqStr PROFILE_STANDARD then do
      let ar ← extract_parameter data "ascent_rate" cast_float
        DFLT_PREDICTION false (some (vnum (fun x => decide ((0 : Rat) < x))))
      let req := dictSet req "ascent_rate" (optVal ar)
      let ba ← extract_parameter data "burst_altitude" cast_float
        DFLT_PREDICTION false (some (vgt launch_alt))
      let req := dictSet req "burst_altitude" (optVal ba)
      let dr ← extract_parameter data "descent_rate" cast_float
        DFLT_PREDICTION false (some (vnum (fun x => decide ((0 : Rat) < x))))
      pure (dictSet req "descent_rate" (optVal dr))
    else if (optVal profile).eqStr PROFILE_FLOAT then do
      let ar ← extract_parameter data "ascent_rate" cast_float
        DFLT_PREDICTION false (some (vnum (fun x => decide ((0 : Rat) < x))))
      let req := dictSet req "ascent_rate" (optVal ar)
      let fa ← extract_parameter data "float_altitude" cast_float
        DFLT_PREDICTION false (some (vgt launch_alt))
      let req := dictSet req "float_altitude" (optVal fa)
      let sd ← extract_parameter data "stop_datetime" cast_rfc3339
        DFLT_PREDICTION false
        (some (vgt (optVal (req.lookup "launch_datetime"))))
      pure (dictSet req "stop_datetime" (optVal sd))
    else
      Except.error (Exc.requestExc
        ("Unknown profile " ++ SQ ++ pyStr (optVal profile) ++ SQ ++ "."))
  -- Dataset
  let ds ← extract_parameter data "dataset" cast_rfc3339
    (some (JVal.str LATEST_DATASET_KEYWORD)) false none
  pure (dictSet req "dataset" (optVal ds))

-- Dataset resolution and the acquisition trigger ---------------------------------

/-- 180 hours, the live forecast horizon, in microseconds
(timedelta(hours=180) added to datetime.now()). -/
def HORIZON_MICRO : Nat := 180 * 3600 * 1000000

/-- _is_old_dataset from api.py: bucket the launch instant, record it under
dataset_time, keep the dataset reference untouched when the bucket lies in
[now, now + 180h), otherwise point the dataset reference at the bucket and
report whether the bucket file is absent from the dataset index. Python
raises TypeError when launch_datetime is not a number
(datetime.fromtimestamp) - that corresponds to the error branch. -/
def is_old_dataset (c : Collab) (req : List (String × JVal)) :
    Except Exc (Bool × List (String × JVal)) :=
  match req.lookup "launch_datetime" with
  | some (JVal.num ts) =>
      match date_to_dataset_name (c.fromtimestamp ts) with
      | none => .error (.typeError "replace received day None")
      | some (dataset_name, launch_dataset_time) =>
          let req := dictSet req "dataset_time" (JVal.dt launch_dataset_time)
          if toEpochMicro c.now ≤ toEpochMicro launch_dataset_time ∧
              toEpochMicro launch_dataset_time
                < toEpochMicro c.now + HORIZON_MICRO then
            .ok (false, req)
          else if c.listdir.contains dataset_name then
            .ok (false, dictSet req "dataset" (JVal.dt launch_dataset_time))
          else
            .ok (true, dictSet req "dataset" (JVal.dt launch_dataset_time))
  | _ => .error (.typeError "an integer is required")

/-- The collaborator call inside the try of the dataset-open step:
open_latest for the latest keyword, else the WindDataset constructor on the
request value. -/
def open_attempt (c : Collab) (dataset : JVal) : Except OpenErr DSHandle :=
  if dataset.eqStr LATEST_DATASET_KEYWORD then c.open_latest
  else c.open_ds dataset

/-- The dataset-open step of run_prediction with its except clauses: IOError
maps to InvalidDatasetException with the fixed message, ValueError to
InvalidDatasetException re-raised with the underlying args. -/
def open_dataset (c : Collab) (dataset : JVal) : Except Exc DSHandle :=
  match open_attempt c dataset with
  | .ok h => .ok h
  | .error .ioError => .error (.invalidDatasetExc ["No matching dataset found."])
  | .error (.valueError args) => .error (.invalidDatasetExc args)

/-- _parse_stages from api.py: the assert on matching lengths, then the
labelled stage objects with wire-formatted sample instants. -/
def parse_stages (labels : List String)
    (data : List (List (Rat × Rat × Rat × Rat))) : Except Exc JVal :=
  if labels.length = data.length then
    .ok (JVal.arr ((labels.zip data).map (fun p =>
      JVal.obj [("stage", JVal.str p.1),
                ("trajectory", JVal.arr (p.2.map (fun q =>
                  JVal.obj [("latitude", JVal.num q.2.1),
                            ("longitude", JVal.num q.2.2.1),
                            ("altitude", JVal.num q.2.2.2),
                            ("datetime",
                              JVal.str (timestamp_to_rfc3339 q.1))])))])))
  else .error .assertionError

/-- Whether a key contains the substring datetime (the Python in operator). -/
def strContainsDatetime (key : String) : Bool :=
  (List.range (key.length + 1)).any (fun i =>
    "datetime".toList.isPrefixOf (key.toList.drop i))

/-- The final loop of run_prediction: every request key containing datetime
has its UNIX timestamp converted to the wire format; a non-numeric value
there is a TypeError inside the conversion. -/
def convert_datetimes : List (String × JVal) → Except Exc (List (String × JVal))
  | [] => .ok []
  | (k, v) :: rest => do
      let v2 ←
        if strContainsDatetime k then
          match v with
          | JVal.num q => pure (JVal.str (timestamp_to_rfc3339 q))
          | _ => Except.error (Exc.typeError "timestamp required")
        else pure v
      let rest2 ← convert_datetimes rest
      pure ((k, v2) :: rest2)

/-- The pure tail of run_prediction, after the acquisition trigger: open the
dataset, normalize the echoed dataset reference, build stages, run the
solver, format the trajectory, convert the echoed timestamps, attach
warnings. Nothing after the trigger touches the filesystem. -/
def run_prediction_body (c : Collab) (req : List (String × JVal)) :
    Except Exc JVal :=
  match open_dataset c (optVal (req.lookup "dataset")) with
  | .error e => .error e
  | .ok tawhiri_ds =>
      let reqR := dictSet req "dataset"
        (JVal.str (strftime_echo tawhiri_ds.ds_time))
      let profile := optVal (req.lookup "profile")
      let stages : Except Exc Nat :=
        if profile.eqStr PROFILE_STANDARD then
          .ok (c.standard_profile (optVal (req.lookup "ascent_rate"))
            (optVal (req.lookup "burst_altitude"))
            (optVal (req.lookup "descent_rate")) tawhiri_ds)
        else if profile.eqStr PROFILE_FLOAT then
          .ok (c.float_profile (optVal (req.lookup "ascent_rate"))
            (optVal (req.lookup "float_altitude"))
            (optVal (req.lookup "stop_datetime")) tawhiri_ds)
        else .error (.internalExc "No implementation for known profile.")
      match stages with
      | .error e => .error e
      | .ok stages =>
          match c.solve (optVal (req.lookup "launch_datetime"))
              (optVal (req.lookup "launch_latitude"))
              (optVal (req.lookup "launch_longitude"))
              (optVal (req.lookup "launch_altitude")) stages with
          | .error e =>
              .error (.predictionExc ("Prediction did not complete: "
                ++ SQ ++ e ++ SQ ++ "."))
          | .ok result =>
              let prediction : Except Exc JVal :=
                if profile.eqStr PROFILE_STANDARD then
                  parse_stages ["ascent", "descent"] result
                else if profile.eqStr PROFILE_FLOAT then
                  parse_stages ["ascent", "float"] result
                else .error (.internalExc "No implementation for known profile.")
              match prediction with
              | .error e => .error e
              | .ok prediction =>
                  match convert_datetimes reqR with
                  | .error e => .error e
                  | .ok reqR2 =>
                      .ok (JVal.obj [("request", JVal.obj reqR2),
                        ("prediction", prediction),
                        ("warnings", c.warnings)])

/-- run_prediction from api.py, with the filesystem threaded explicitly:
the acquisition check runs first and, when the bucket is old and absent,
creates the marker files; the rest of the pipeline is run_prediction_body. -/
def run_prediction (c : Collab) (fs : FS) (req0 : List (String × JVal)) :
    Except Exc JVal × FS :=
  match is_old_dataset c req0 with
  | .error e => (.error e, fs)
  | .ok (isOld, req) =>
      let fs2 :=
        if isOld then
          match req.lookup "dataset_time" with
          | some (JVal.dt ldt) => download_old_dataset fs ldt
          | _ => fs
        else fs
      (run_prediction_body c req, fs2)

-- Dispatch and the Flask boundary -------------------------------------------------

/-- _get_present_datasets from api.py: echo the raw request and enumerate the
dataset index (each listdir entry observed through its filename). -/
def get_present_datasets (c : Collab) (req : List (String × String)) : JVal :=
  JVal.obj [("request", JVal.obj (req.map (fun p => (p.1, JVal.str p.2)))),
            ("datasets", JVal.arr (c.listdir.map JVal.str))]

/-- _get_request_type from api.py: extract type with the (QGIS-compat)
default of the string prediction. -/
def get_request_type (data : List (String × String)) :
    Except Exc (Option JVal) :=
  extract_parameter data "type" cast_str DFLT_PREDICTION false none

/-- parse_request from api.py: dispatch on the request type; unknown types
produce the plain string value, not an exception. -/
def parse_request (c : Collab) (fs : FS) (data : List (String × String)) :
    Except Exc JVal × FS :=
  match get_request_type data with
  | .error e => (.error e, fs)
  | .ok request_type =>
      if (optVal request_type).eqStr "prediction" then
        match parse_prediction_request c data with
        | .error e => (.error e, fs)
        | .ok req => run_prediction c fs req
      else if (optVal request_type).eqStr "load_datasets" then
        (.ok (get_present_datasets c data), fs)
      else
        (.ok (JVal.str "invalid request type"), fs)

/-- _format_request_metadata from api.py. -/
def format_request_metadata (start complete : Rat) : JVal :=
  JVal.obj [("start_datetime", JVal.str (timestamp_to_rfc3339 start)),
            ("complete_datetime", JVal.str (timestamp_to_rfc3339 complete))]

/-- handle_exception from api.py: the uniform error envelope (with metadata)
and the HTTP status of the exception kind. -/
def handle_exception (error : Exc) (start complete : Rat) : JVal × Nat :=
  (JVal.obj [("error",
      JVal.obj [("type", JVal.str error.typeName),
                ("description", JVal.str error.descr)]),
    ("metadata", format_request_metadata start complete)],
   error.status_code)

/-- What the Flask app produces for one request: the jsonified value from
main (note main attaches no metadata: the metadata line in main is commented
out in api.py), or the handled API error envelope, or an exception Flask
never routes to handle_exception (no errorhandler matches). -/
inductive BoundaryResult where
  | success (body : JVal) (fs : FS)
  | apiError (body : JVal) (status : Nat) (fs : FS)
  | unhandled (e : Exc) (fs : FS)
deriving Repr

/-- The request boundary: main plus the errorhandler(APIException) hook. -/
def app_boundary (c : Collab) (fs : FS) (data : List (String × String))
    (t_start t_complete : Rat) : BoundaryResult :=
  match parse_request c fs data with
  | (.ok v, fs2) => .success v fs2
  | (.error e, fs2) =>
      if e.isAPI then
        let he := handle_exception e t_start t_complete
        .apiError he.1 he.2 fs2
      else .unhandled e fs2

/-- Field lookup on an object value. -/
def jvalGet (v : JVal) (k : String) : Option JVal :=
  match v with
  | .obj l => l.lookup k
  | _ => none

/-- Whether an object value carries a field. -/
def jvalHasKey (v : JVal) (k : String) : Bool := (jvalGet v k).isSome

-- Sample collaborator instantiations used by concrete witnesses -------------------

/-- A concrete datetime.fromtimestamp (UTC variant), used to instantiate the
external collaborator in concrete witnesses. -/
def datetime_fromtimestamp (t : Rat) : DateTime :=
  let n : Int := Rat.floor t
  let days : Int := Int.fdiv n 86400
  let sod : Nat := Int.toNat (n - days * 86400)
  let o : Nat := Int.toNat (days + (EPOCH_ORDINAL : Int))
  let ymd := dateFromOrdinal o
  ⟨ymd.1, ymd.2.1, ymd.2.2, sod / 3600, sod % 3600 / 60, sod % 60, 0⟩

/-- A concrete collaborator record for witnesses: now is 2020-01-10 06:00,
two dataset files are present, the latest dataset is the 2020-01-12 18:00
cycle, the solver returns one sample per stage for two stages. -/
def sampleCollab : Collab where
  now := ⟨2020, 1, 10, 6, 0, 0, 0⟩
  listdir := ["2020010100", "2020011000"]
  fromtimestamp := datetime_fromtimestamp
  elevation := fun _ _ => .ok (JVal.num 100)
  open_latest := .ok ⟨⟨2020, 1, 12, 18, 0, 0, 0⟩⟩
  open_ds := fun v =>
    match v with
    | .dt d => .ok ⟨d⟩
    | .num _ => .ok ⟨⟨2020, 1, 1, 0, 0, 0, 0⟩⟩
    | _ => .error .ioError
  standard_profile := fun _ _ _ _ => 1
  float_profile := fun _ _ _ _ => 2
  solve := fun _ _ _ _ _ => .ok [[(0, 10, 20, 0)], [(60, 11, 21, 100)]]
  warnings := JVal.obj []

/-- An empty filesystem with no failing paths. -/
def sampleFS : FS := ⟨[], []⟩

-- Helper lemmas -------------------------------------------------------------------

theorem lookup_setEntry_self (l : List (String × String)) (p c : String) :
    (setEntry l p c).lookup p = some c := by
  induction l with
  | nil => simp [setEntry, List.lookup]
  | cons hd tl ih =>
      by_cases h : hd.1 = p
      · simp [setEntry, h, List.lookup]
      · simp only [setEntry]
        rw [if_neg (by exact fun hc => h (by cases hd; simpa using hc))]
        · simp only [List.lookup]
          rw [show (p == hd.1) = false from beq_eq_false_iff_ne.mpr
            (fun hc => h hc.symm)]
          · exact ih

theorem lookup_setEntry_ne (l : List (String × String)) (p c q : String)
    (h : q ≠ p) : (setEntry l p c).lookup q = l.lookup q := by
  induction l with
  | nil => simp [setEntry, List.lookup, beq_eq_false_iff_ne.mpr h]
  | cons hd tl ih =>
      by_cases h2 : hd.1 = p
      · cases hd with
        | mk k v =>
            simp only at h2
            subst h2
            simp only [setEntry, if_pos rfl, List.lookup,
              beq_eq_false_iff_ne.mpr h]
      · cases hd with
        | mk k v =>
            simp only at h2
            simp only [setEntry, if_neg h2, List.lookup]
            cases hqk : q == k with
            | true => rfl
            | false => exact ih

theorem setEntry_of_lookup (l : List (String × String)) (p c : String)
    (h : l.lookup p = some c) : setEntry l p c = l := by
  induction l with
  | nil => simp [List.lookup] at h
  | cons hd tl ih =>
      cases hd with
      | mk k v =>
          simp only [List.lookup] at h
          cases hpk : p == k with
          | true =>
              rw [hpk] at h
              have hk : k = p := (eq_of_beq hpk).symm
              have hv : v = c := by
                simpa using h
              subst hk
              subst hv
              simp [setEntry]
          | false =>
              rw [hpk] at h
              simp only at h
              have hk : ¬ k = p := fun hc => by
                rw [hc] at hpk
                simp at hpk
              simp only [setEntry, if_neg hk, ih h]

/-- The four-bucket loop sends any in-range hour to the floor multiple of 6. -/
theorem hour_to_nearest_dataset_eq (day hour : Nat) (h : hour < 24) :
    hour_to_nearest_dataset day hour = some (day, hour / 6 * 6) := by
  interval_cases hour <;> rfl

/-- Characterization of the bucketing step on in-range hours. -/
theorem date_to_dataset_name_eq (d : DateTime) (hh : d.hour < 24) :
    date_to_dataset_name d =
      some (strftime_YmdH ⟨d.year, d.month, d.day, d.hour / 6 * 6, 0, 0, 0⟩,
            ⟨d.year, d.month, d.day, d.hour / 6 * 6, 0, 0, 0⟩) := by
  unfold date_to_dataset_name
  rw [hour_to_nearest_dataset_eq d.day d.hour hh]

-- Claim theorems -------------------------------------------------------------------

/-- C1: the claim states that a request map missing one of the required
generic fields launch_latitude, launch_longitude, launch_datetime makes
parse_prediction_request raise a RequestException naming the field. The code
does not: _extract_parameter defaults its default parameter to the string
prediction, so a missing required field is silently replaced by that string
and parsing succeeds (first conjunct, on the empty request map: no exception,
every required field bound to the string prediction). The second half of the
claim is true: a present but out-of-range launch_latitude = 95 raises a
RequestException naming the field (second conjunct). -/
theorem C1_missing_field_yields_default_not_error (c : Collab) :
    parse_prediction_request c [] = Except.ok
      [("version", JVal.num 1),
       ("launch_latitude", JVal.str "prediction"),
       ("launch_longitude", JVal.str "prediction"),
       ("launch_datetime", JVal.str "prediction"),
       ("launch_altitude", JVal.str "prediction"),
       ("profile", JVal.str "standard_profile"),
       ("ascent_rate", JVal.str "prediction"),
       ("burst_altitude", JVal.str "prediction"),
       ("descent_rate", JVal.str "prediction"),
       ("dataset", JVal.str "latest")] ∧
    parse_prediction_request c [("launch_latitude", "95")] =
      Except.error (Exc.requestExc (msg_invalid "launch_latitude" "95")) :=
  ⟨rfl, rfl⟩

/-- C2: for every input instant with in-range time fields, the bucketing
functions map hour h to bucket hour 0 on [0,6), 6 on [6,12), 12 on [12,18)
and 18 on [18,24); the bucket keeps the calendar date, its instant is at or
before the input instant, and the offset is strictly below six hours. -/
theorem C2_time_bucketing (d : DateTime) (hh : d.hour < 24) (hm : d.minute < 60)
    (hs : d.second < 60) (hus : d.microsecond < 1000000) :
    ∃ name b, date_to_dataset_name d = some (name, b) ∧
      b.year = d.year ∧ b.month = d.month ∧ b.day = d.day ∧
      (d.hour < 6 → b.hour = 0) ∧
      (6 ≤ d.hour ∧ d.hour < 12 → b.hour = 6) ∧
      (12 ≤ d.hour ∧ d.hour < 18 → b.hour = 12) ∧
      (18 ≤ d.hour → b.hour = 18) ∧
      toEpochMicro b ≤ toEpochMicro d ∧
      toEpochMicro d - toEpochMicro b < 6 * 3600 * 1000000 := by
  refine ⟨strftime_YmdH ⟨d.year, d.month, d.day, d.hour / 6 * 6, 0, 0, 0⟩,
    ⟨d.year, d.month, d.day, d.hour / 6 * 6, 0, 0, 0⟩,
    date_to_dataset_name_eq d hh, rfl, rfl, rfl, ?_, ?_, ?_, ?_, ?_, ?_⟩
  · intro h6
    show d.hour / 6 * 6 = 0
    omega
  · intro h612
    show d.hour / 6 * 6 = 6
    omega
  · intro h1218
    show d.hour / 6 * 6 = 12
    omega
  · intro h18
    show d.hour / 6 * 6 = 18
    omega
  · show (((toOrdinal d * 24 + d.hour / 6 * 6) * 60 + 0) * 60 + 0) * 1000000 + 0
      ≤ (((toOrdinal d * 24 + d.hour) * 60 + d.minute) * 60 + d.second) * 1000000
        + d.microsecond
    omega
  · show (((toOrdinal d * 24 + d.hour) * 60 + d.minute) * 60 + d.second) * 1000000
        + d.microsecond
      - ((((toOrdinal d * 24 + d.hour / 6 * 6) * 60 + 0) * 60 + 0) * 1000000 + 0)
      < 6 * 3600 * 1000000
    omega

/-- C3: when the resolved bucket instant lies in [now, now + 180h), the
acquisition trigger reports false with the request dict only extended by
dataset_time, and run_prediction leaves the filesystem untouched (no marker
files), whatever the dataset index contains. -/
theorem C3_live_window_no_markers (c : Collab) (fs : FS)
    (req : List (String × JVal)) (ts : Rat) (name : String) (bt : DateTime)
    (hld : req.lookup "launch_datetime" = some (JVal.num ts))
    (hbt : date_to_dataset_name (c.fromtimestamp ts) = some (name, bt))
    (hlo : toEpochMicro c.now ≤ toEpochMicro bt)
    (hhi : toEpochMicro bt < toEpochMicro c.now + HORIZON_MICRO) :
    is_old_dataset c req =
      .ok (false, dictSet req "dataset_time" (JVal.dt bt)) ∧
    (run_prediction c fs req).2 = fs := by
  have h1 : is_old_dataset c req =
      .ok (false, dictSet req "dataset_time" (JVal.dt bt)) := by
    simp only [is_old_dataset, hld, hbt]
    rw [if_pos ⟨hlo, hhi⟩]
  refine ⟨h1, ?_⟩
  unfold run_prediction
  rw [h1]
  rfl

set_option maxRecDepth 100000 in
/-- Witness for C3: the 2020-01-10 06:00 bucket equals now, hence lies in
the live window; the trigger declines and no marker is created. -/
theorem C3_live_window_no_markers_witness :
    ([(("launch_datetime" : String), JVal.num 1578636000)].lookup
        "launch_datetime" = some (JVal.num 1578636000) ∧
      date_to_dataset_name (sampleCollab.fromtimestamp 1578636000) =
        some ("2020011006", ⟨2020, 1, 10, 6, 0, 0, 0⟩) ∧
      toEpochMicro sampleCollab.now ≤ toEpochMicro ⟨2020, 1, 10, 6, 0, 0, 0⟩ ∧
      toEpochMicro ⟨2020, 1, 10, 6, 0, 0, 0⟩
        < toEpochMicro sampleCollab.now + HORIZON_MICRO) ∧
    is_old_dataset sampleCollab [("launch_datetime", JVal.num 1578636000)] =
      .ok (false, dictSet [("launch_datetime", JVal.num 1578636000)]
        "dataset_time" (JVal.dt ⟨2020, 1, 10, 6, 0, 0, 0⟩)) ∧
    (run_prediction sampleCollab sampleFS
      [("launch_datetime", JVal.num 1578636000)]).2 = sampleFS :=
  ⟨⟨rfl, rfl, by decide, by decide⟩,
    C3_live_window_no_markers sampleCollab sampleFS
      [("launch_datetime", JVal.num 1578636000)] 1578636000 "2020011006"
      ⟨2020, 1, 10, 6, 0, 0, 0⟩ rfl rfl (by decide) (by decide)⟩

/-- The dataset reference echoed in a successful response. -/
def echoed_dataset (r : Except Exc JVal × FS) : Option JVal :=
  match r.1 with
  | .ok v =>
      match jvalGet v "request" with
      | some rq => jvalGet rq "dataset"
      | none => none
  | .error _ => none

/-- A full valid standard-profile request map whose launch instant
1578636000 is 2020-01-10 06:00, the same instant as sampleCollab.now. -/
def sampleData2 : List (String × String) :=
  [("launch_latitude", "50"), ("launch_longitude", "10"),
   ("launch_datetime", "2020-01-10T06:00:00Z"), ("launch_altitude", "100"),
   ("ascent_rate", "5"), ("burst_altitude", "30000"), ("descent_rate", "5")]

/-- The request dict parse_prediction_request produces for sampleData2. -/
def reqC4 : List (String × JVal) :=
  [("version", JVal.num 1),
   ("launch_latitude", JVal.num 50),
   ("launch_longitude", JVal.num 10),
   ("launch_datetime", JVal.num 1578636000),
   ("launch_altitude", JVal.num 100),
   ("profile", JVal.str "standard_profile"),
   ("ascent_rate", JVal.num 5),
   ("burst_altitude", JVal.num 30000),
   ("descent_rate", JVal.num 5),
   ("dataset", JVal.str "latest")]

set_option maxRecDepth 1000000 in
/-- C4: the claim states that inside the live forecast window the
orchestrator is instructed to use the resolved bucket directly, so the
dataset subsequently opened is the bucket of the request. The code does not
do this: the in-window early return of _is_old_dataset skips the assignment
of the dataset key, so a request with the default dataset reference keeps
the latest keyword (fourth conjunct) and run_prediction opens the latest
dataset, echoing its cycle 2020-01-12 18:00 (fifth conjunct) instead of the
resolved bucket 2020-01-10 06:00, which is in the window (third conjunct)
and formats differently (last conjuncts). -/
theorem C4_live_window_opens_latest_not_bucket :
    parse_prediction_request sampleCollab sampleData2 = .ok reqC4 ∧
    is_old_dataset sampleCollab reqC4 =
      .ok (false, dictSet reqC4 "dataset_time"
        (JVal.dt ⟨2020, 1, 10, 6, 0, 0, 0⟩)) ∧
    (toEpochMicro sampleCollab.now ≤ toEpochMicro ⟨2020, 1, 10, 6, 0, 0, 0⟩ ∧
      toEpochMicro ⟨2020, 1, 10, 6, 0, 0, 0⟩
        < toEpochMicro sampleCollab.now + HORIZON_MICRO) ∧
    (dictSet reqC4 "dataset_time"
        (JVal.dt ⟨2020, 1, 10, 6, 0, 0, 0⟩)).lookup "dataset" =
      some (JVal.str "latest") ∧
    echoed_dataset (run_prediction sampleCollab sampleFS reqC4) =
      some (JVal.str "2020-01-12T18:00:00Z") ∧
    strftime_echo ⟨2020, 1, 10, 6, 0, 0, 0⟩ = "2020-01-10T06:00:00Z" ∧
    ("2020-01-12T18:00:00Z" : String) ≠ "2020-01-10T06:00:00Z" :=
  ⟨rfl, rfl, ⟨by decide, by decide⟩, rfl, rfl, rfl, by decide⟩

/-- C5: on a filesystem where both marker paths are writable, triggering the
marker pair twice for the same bucket instant gives exactly the filesystem of
a single trigger; both markers exist with empty content; no other path is
touched; and the set of failing paths is unchanged. -/
theorem C5_marker_idempotent (fs : FS) (t : DateTime)
    (h1 : fs.failing.contains (observed_path t) = false)
    (h2 : fs.failing.contains (exclusion_path t) = false) :
    download_old_dataset (download_old_dataset fs t) t =
      download_old_dataset fs t ∧
    (download_old_dataset fs t).entries.lookup (observed_path t) = some "" ∧
    (download_old_dataset fs t).entries.lookup (exclusion_path t) = some "" ∧
    (∀ q, q ≠ observed_path t → q ≠ exclusion_path t →
      (download_old_dataset fs t).entries.lookup q = fs.entries.lookup q) ∧
    (download_old_dataset fs t).failing = fs.failing := by
  have hw : ∀ g : FS, g.failing = fs.failing →
      download_old_dataset g t =
        ⟨setEntry (setEntry g.entries (observed_path t) "")
          (exclusion_path t) "", fs.failing⟩ := by
    intro g hg
    have hg1 : fs.failing.contains (observed_path t) = false := h1
    have hg2 : fs.failing.contains (exclusion_path t) = false := h2
    simp only [download_old_dataset, touch_file, FS.write, hg, hg1, hg2,
      Bool.false_eq_true, if_false]
  have hbase := hw fs rfl
  have hl1 : (setEntry (setEntry fs.entries (observed_path t) "")
      (exclusion_path t) "").lookup (observed_path t) = some "" := by
    by_cases hpp : observed_path t = exclusion_path t
    · rw [hpp]
      exact lookup_setEntry_self _ _ _
    · rw [lookup_setEntry_ne _ _ _ _ hpp]
      exact lookup_setEntry_self _ _ _
  have hl2 : (setEntry (setEntry fs.entries (observed_path t) "")
      (exclusion_path t) "").lookup (exclusion_path t) = some "" :=
    lookup_setEntry_self _ _ _
  refine ⟨?_, ?_, ?_, ?_, ?_⟩
  · rw [hbase, hw ⟨setEntry (setEntry fs.entries (observed_path t) "")
      (exclusion_path t) "", fs.failing⟩ rfl]
    have hinner : setEntry (setEntry (setEntry fs.entries (observed_path t) "")
        (exclusion_path t) "") (observed_path t) ""
        = setEntry (setEntry fs.entries (observed_path t) "")
          (exclusion_path t) "" :=
      setEntry_of_lookup _ _ _ hl1
    rw [show (⟨setEntry (setEntry fs.entries (observed_path t) "")
        (exclusion_path t) "", fs.failing⟩ : FS).entries
        = setEntry (setEntry fs.entries (observed_path t) "")
          (exclusion_path t) "" from rfl]
    rw [hinner, setEntry_of_lookup _ _ _ hl2]
  · rw [hbase]
    exact hl1
  · rw [hbase]
    exact hl2
  · intro q hq1 hq2
    rw [hbase]
    show (setEntry (setEntry fs.entries (observed_path t) "")
      (exclusion_path t) "").lookup q = fs.entries.lookup q
    rw [lookup_setEntry_ne _ _ _ _ hq2, lookup_setEntry_ne _ _ _ _ hq1]
  · rw [hbase]

/-- Witness for C5 at the bucket instant 2020-01-05 12:00 on the empty
filesystem. -/
theorem C5_marker_idempotent_witness :
    (sampleFS.failing.contains (observed_path ⟨2020, 1, 5, 12, 0, 0, 0⟩)
        = false ∧
      sampleFS.failing.contains (exclusion_path ⟨2020, 1, 5, 12, 0, 0, 0⟩)
        = false) ∧
    download_old_dataset
        (download_old_dataset sampleFS ⟨2020, 1, 5, 12, 0, 0, 0⟩)
        ⟨2020, 1, 5, 12, 0, 0, 0⟩ =
      download_old_dataset sampleFS ⟨2020, 1, 5, 12, 0, 0, 0⟩ ∧
    (download_old_dataset sampleFS ⟨2020, 1, 5, 12, 0, 0, 0⟩).entries.lookup
        (observed_path ⟨2020, 1, 5, 12, 0, 0, 0⟩) = some "" ∧
    (download_old_dataset sampleFS ⟨2020, 1, 5, 12, 0, 0, 0⟩).entries.lookup
        (exclusion_path ⟨2020, 1, 5, 12, 0, 0, 0⟩) = some "" ∧
    (download_old_dataset sampleFS ⟨2020, 1, 5, 12, 0, 0, 0⟩).failing
        = sampleFS.failing :=
  ⟨⟨rfl, rfl⟩,
    (C5_marker_idempotent sampleFS ⟨2020, 1, 5, 12, 0, 0, 0⟩ rfl rfl).1,
    (C5_marker_idempotent sampleFS ⟨2020, 1, 5, 12, 0, 0, 0⟩ rfl rfl).2.1,
    (C5_marker_idempotent sampleFS ⟨2020, 1, 5, 12, 0, 0, 0⟩ rfl rfl).2.2.1,
    (C5_marker_idempotent sampleFS ⟨2020, 1, 5, 12, 0, 0, 0⟩ rfl rfl).2.2.2.2⟩

/-- C6: the claim states the elevation dataset is constructed exactly once,
on the first call, and cached. The code guard is
hasattr("ruaumoko_ds", "once"), applied to the string literal instead of the
function object; the str type has no once attribute, so the guard is false
in every state (third conjunct), and a second call constructs a second
ElevationDataset (two constructions, a handle different from the first). -/
theorem C6_elevation_constructed_each_call :
    (ruaumoko_ds (ruaumoko_ds ⟨none, 0⟩).2).2.constructions = 2 ∧
    (ruaumoko_ds (ruaumoko_ds ⟨none, 0⟩).2).1 ≠ (ruaumoko_ds ⟨none, 0⟩).1 ∧
    hasattr_str_once (ruaumoko_ds ⟨none, 0⟩).2 = false := by
  exact ⟨rfl, by decide, rfl⟩

/-- The successful load_datasets response of sampleCollab. -/
def datasetsResp : JVal :=
  JVal.obj [("request", JVal.obj [("type", JVal.str "load_datasets")]),
            ("datasets",
              JVal.arr [JVal.str "2020010100", JVal.str "2020011000"])]

/-- C7: the claim states every envelope, success and error alike, carries
request-timing metadata. Success envelopes do not: main never attaches a
metadata field (the attachment is commented out in api.py), so the
successful response to a load_datasets request has no metadata key. -/
theorem C7_success_envelope_lacks_metadata :
    (parse_request sampleCollab sampleFS [("type", "load_datasets")]).1 =
      .ok datasetsResp ∧
    jvalHasKey datasetsResp "metadata" = false :=
  ⟨rfl, rfl⟩

/-- C7 amended: every error envelope carries a metadata object holding the
wall-clock start and completion instants in the wire timestamp format, and
the response status is the status code of the exception kind. -/
theorem C7_error_envelope_has_metadata (e : Exc) (t_start t_complete : Rat) :
    jvalGet (handle_exception e t_start t_complete).1 "metadata" =
      some (JVal.obj
        [("start_datetime", JVal.str (timestamp_to_rfc3339 t_start)),
         ("complete_datetime",
           JVal.str (timestamp_to_rfc3339 t_complete))]) ∧
    (handle_exception e t_start t_complete).2 = e.status_code :=
  ⟨rfl, rfl⟩

/-- Whether opening a path for writing raises in the filesystem model. -/
def writeFails (fs : FS) (p : String) : Bool :=
  match fs.write p "" with
  | .error _ => true
  | .ok _ => false

/-- A filesystem on which both marker paths of the 2020-01-01 00:00 bucket
fail to open for writing. -/
def failingFS : FS :=
  ⟨[], [observed_path ⟨2020, 1, 1, 0, 0, 0, 0⟩,
        exclusion_path ⟨2020, 1, 1, 0, 0, 0, 0⟩]⟩

/-- C8: the claim states no error raised during request handling is
silently swallowed. The marker-creation step contradicts it: on a
filesystem where both marker writes raise, _download_old_dataset returns
normally with the filesystem unchanged - the exceptions are caught inside
touch_file and only printed, so the acquisition failure is invisible to the
caller and to the response. -/
theorem C8_marker_write_failure_swallowed :
    writeFails failingFS (observed_path ⟨2020, 1, 1, 0, 0, 0, 0⟩) = true ∧
    writeFails failingFS (exclusion_path ⟨2020, 1, 1, 0, 0, 0, 0⟩) = true ∧
    download_old_dataset failingFS ⟨2020, 1, 1, 0, 0, 0, 0⟩ = failingFS :=
  ⟨rfl, rfl, rfl⟩

/-- C8 amended: every APIException that propagates out of validation or
orchestration is caught exactly once at the boundary and converted into the
uniform error envelope with the status of its kind (marker-write failures,
swallowed inside touch_file, and non-APIException errors are the recorded
exceptions). -/
theorem C8_api_error_converted_at_boundary (c : Collab) (fs fs2 : FS)
    (data : List (String × String)) (t1 t2 : Rat) (e : Exc)
    (hres : parse_request c fs data = (.error e, fs2))
    (hapi : e.isAPI = true) :
    app_boundary c fs data t1 t2 =
      .apiError (JVal.obj [("error",
          JVal.obj [("type", JVal.str e.typeName),
                    ("description", JVal.str e.descr)]),
        ("metadata", format_request_metadata t1 t2)]) e.status_code fs2 := by
  unfold app_boundary
  rw [hres]
  simp [hapi, handle_exception]

/-- Witness for C8: an uncastable launch_latitude raises a RequestException,
which the boundary converts to the envelope with status 400. -/
theorem C8_api_error_converted_at_boundary_witness :
    (parse_request sampleCollab sampleFS [("launch_latitude", "abc")] =
        (.error (.requestExc (msg_unparseable "launch_latitude" "abc")),
          sampleFS) ∧
      (Exc.requestExc (msg_unparseable "launch_latitude" "abc")).isAPI
        = true) ∧
    app_boundary sampleCollab sampleFS [("launch_latitude", "abc")] 0 1 =
      .apiError (JVal.obj [("error",
          JVal.obj [("type", JVal.str "RequestException"),
                    ("description",
                      JVal.str (msg_unparseable "launch_latitude" "abc"))]),
        ("metadata", format_request_metadata 0 1)]) 400 sampleFS :=
  ⟨⟨rfl, rfl⟩,
    C8_api_error_converted_at_boundary sampleCollab sampleFS sampleFS
      [("launch_latitude", "abc")] 0 1
      (.requestExc (msg_unparseable "launch_latitude" "abc")) rfl rfl⟩

/-- C9: every failure of the dataset-open collaborator surfaces as an
InvalidDatasetException (never an InternalException): a not-found IOError
maps to the fixed not-found message, a malformed-selector ValueError maps to
an InvalidDatasetException carrying the underlying args. -/
theorem C9_open_failures_map_to_invalid_dataset (c : Collab) (v : JVal) :
    (∀ e, open_dataset c v = .error e →
      ∃ args, e = Exc.invalidDatasetExc args) ∧
    (open_attempt c v = .error .ioError →
      open_dataset c v =
        .error (.invalidDatasetExc ["No matching dataset found."])) ∧
    (∀ args, open_attempt c v = .error (.valueError args) →
      open_dataset c v = .error (.invalidDatasetExc args)) := by
  refine ⟨?_, ?_, ?_⟩
  · intro e he
    unfold open_dataset at he
    cases ha : open_attempt c v with
    | ok hh =>
        rw [ha] at he
        simp at he
    | error oe =>
        rw [ha] at he
        cases oe with
        | ioError =>
            simp at he
            exact ⟨["No matching dataset found."], he.symm⟩
        | valueError args =>
            simp at he
            exact ⟨args, he.symm⟩
  · intro hio
    unfold open_dataset
    rw [hio]
  · intro args hve
    unfold open_dataset
    rw [hve]

/-- A collaborator whose latest-dataset open raises IOError. -/
def ioCollab : Collab := { sampleCollab with open_latest := .error .ioError }

/-- A collaborator whose latest-dataset open raises ValueError. -/
def veCollab : Collab :=
  { sampleCollab with
      open_latest := .error (.valueError ["invalid dataset selector"]) }

/-- Witness for C9: a failing open_latest under both failure modes. -/
theorem C9_open_failures_map_to_invalid_dataset_witness :
    (open_attempt ioCollab (JVal.str "latest") = .error .ioError ∧
      open_attempt veCollab (JVal.str "latest") =
        .error (.valueError ["invalid dataset selector"])) ∧
    open_dataset ioCollab (JVal.str "latest") =
      .error (.invalidDatasetExc ["No matching dataset found."]) ∧
    open_dataset veCollab (JVal.str "latest") =
      .error (.invalidDatasetExc ["invalid dataset selector"]) :=
  ⟨⟨rfl, rfl⟩,
    (C9_open_failures_map_to_invalid_dataset ioCollab
      (JVal.str "latest")).2.1 rfl,
    (C9_open_failures_map_to_invalid_dataset veCollab
      (JVal.str "latest")).2.2 ["invalid dataset selector"] rfl⟩

/-- Extraction of any parameter other than type is unaffected by a type
entry at the front of the request map. -/
theorem extract_skip_type (p : String) (data : List (String × String))
    (k : String) (cast : String → Option JVal) (dflt : Option JVal)
    (ign : Bool) (val : Option (JVal → Except Exc Bool))
    (h : (k == "type") = false) :
    extract_parameter (("type", p) :: data) k cast dflt ign val =
      extract_parameter data k cast dflt ign val := by
  unfold extract_parameter
  simp only [List.lookup, h]

/-- C10: a request map with no type field is handled exactly as the same map
with type set to prediction: the dispatcher defaults the missing type to
prediction, and the prediction pipeline reads none of its values from the
type key, so the full results coincide. -/
theorem C10_missing_type_defaults_to_prediction (c : Collab) (fs : FS)
    (data : List (String × String)) (h : data.lookup "type" = none) :
    parse_request c fs (("type", "prediction") :: data) =
      parse_request c fs data := by
  have hb1 : (("launch_latitude" : String) == "type") = false := rfl
  have hb2 : (("launch_longitude" : String) == "type") = false := rfl
  have hb3 : (("launch_datetime" : String) == "type") = false := rfl
  have hb4 : (("launch_altitude" : String) == "type") = false := rfl
  have hb5 : (("profile" : String) == "type") = false := rfl
  have hb6 : (("ascent_rate" : String) == "type") = false := rfl
  have hb7 : (("burst_altitude" : String) == "type") = false := rfl
  have hb8 : (("descent_rate" : String) == "type") = false := rfl
  have hb9 : (("float_altitude" : String) == "type") = false := rfl
  have hb10 : (("stop_datetime" : String) == "type") = false := rfl
  have hb11 : (("dataset" : String) == "type") = false := rfl
  have hskip : parse_prediction_request c (("type", "prediction") :: data) =
      parse_prediction_request c data := by
    unfold parse_prediction_request
    simp only [extract_skip_type, hb1, hb2, hb3, hb4, hb5, hb6, hb7, hb8,
      hb9, hb10, hb11]
  have h1 : get_request_type (("type", "prediction") :: data) =
      .ok (some (JVal.str "prediction")) := rfl
  have h2 : get_request_type data = .ok (some (JVal.str "prediction")) := by
    unfold get_request_type extract_parameter
    rw [h]
    rfl
  unfold parse_request
  rw [h1, h2, hskip]
  rfl

/-- Witness for C10 on the empty request map. -/
theorem C10_missing_type_defaults_to_prediction_witness :
    (([] : List (String × String)).lookup "type" = none) ∧
    parse_request sampleCollab sampleFS [("type", "prediction")] =
      parse_request sampleCollab sampleFS [] :=
  ⟨rfl, C10_missing_type_defaults_to_prediction sampleCollab sampleFS [] rfl⟩

/-- Witness for C2 at the concrete instant 2020-01-10 07:30:15.000002. -/
theorem C2_time_bucketing_witness :
    ((7 : Nat) < 24 ∧ (30 : Nat) < 60 ∧ (15 : Nat) < 60 ∧
      (2 : Nat) < 1000000) ∧
    (∃ name b,
      date_to_dataset_name ⟨2020, 1, 10, 7, 30, 15, 2⟩ = some (name, b) ∧
      b.year = 2020 ∧ b.month = 1 ∧ b.day = 10 ∧
      ((7 : Nat) < 6 → b.hour = 0) ∧
      (6 ≤ (7 : Nat) ∧ (7 : Nat) < 12 → b.hour = 6) ∧
      (12 ≤ (7 : Nat) ∧ (7 : Nat) < 18 → b.hour = 12) ∧
      (18 ≤ (7 : Nat) → b.hour = 18) ∧
      toEpochMicro b ≤ toEpochMicro ⟨2020, 1, 10, 7, 30, 15, 2⟩ ∧
      toEpochMicro ⟨2020, 1, 10, 7, 30, 15, 2⟩ - toEpochMicro b
        < 6 * 3600 * 1000000) :=
  ⟨⟨by decide, by decide, by decide, by decide⟩,
    C2_time_bucketing ⟨2020, 1, 10, 7, 30, 15, 2⟩ (by decide) (by decide)
      (by decide) (by decide)⟩




